import Mathlib

/-!
Verification of the CAP backend batch card-generation pipeline
(`routes/card.js`). The repository ships two variants of the route file
(an all-in-one Cloudinary variant and an older disk-based variant); both
are embedded where the claims reference them. JavaScript strings are
modelled as `List Char` / `String`, image buffers and canvases as an
explicit list of drawing operations, and the external collaborators
(image store, database) as oracle parameters recording success or
failure of each call.
-/

/-! ## RosterParser: quote-aware CSV line splitting (parseCSVLine) -/

/-- Whitespace test used to model the JavaScript String.prototype.trim
(ASCII whitespace, which covers every input appearing in the claims). -/
def isWS (c : Char) : Bool := c == ' ' || c == '\t' || c == '\n' || c == '\r'

/-- Model of JavaScript trim: strip leading and trailing whitespace. -/
def trimChars (l : List Char) : List Char :=
  ((l.dropWhile isWS).reverse.dropWhile isWS).reverse

/-- Model of JavaScript split: split a character list on a separator. -/
def splitOnChar (sep : Char) : List Char → List (List Char)
  | [] => [[]]
  | c :: rest =>
    match splitOnChar sep rest with
    | [] => if c == sep then [[], []] else [[c]]
    | h :: t => if c == sep then [] :: h :: t else (c :: h) :: t

/-- The character-level state machine of `parseCSVLine` (card.js lines
589-617): a comma inside quotes is not a delimiter, a doubled quote
inside quotes is an escaped literal quote, any other quote toggles the
in-quotes flag. Accumulates the current field in `cur`. -/
def splitCSVChars : List Char → List Char → Bool → List (List Char)
  | [], cur, _ => [cur]
  | c :: rest, cur, inQ =>
    if c = '"' then
      if inQ then
        match rest with
        | '"' :: rest2 => splitCSVChars rest2 (cur ++ ['"']) true
        | [] => splitCSVChars [] cur false
        | c2 :: rest2 => splitCSVChars (c2 :: rest2) cur false
      else splitCSVChars rest cur true
    else if c = ',' ∧ inQ = false then
      cur :: splitCSVChars rest [] inQ
    else splitCSVChars rest (cur ++ [c]) inQ

/-- `parseCSVLine` from card.js: run the state machine over the line and
trim every captured field. -/
def parseCSVLine (line : List Char) : List String :=
  (splitCSVChars line [] false).map (fun f => String.mk (trimChars f))

/-! ## RosterParser: buffer-level parsing (parseCSVFromBuffer) -/

/-- Model of JavaScript String.prototype.includes (substring test),
used by the header auto-detection. -/
def hasSub : List Char → List Char → Bool
  | [], pat => pat.isEmpty
  | c :: rest, pat => pat.isPrefixOf (c :: rest) || hasSub rest pat

/-- Student record as assembled by the roster parser (the persistence
collaborator owns further fields; generation metadata is modelled
separately). -/
structure StudentRec where
  student_id : String
  name : String
  cls : String
  level : String
  residence : String
  gender : String
  academic_year : String
  parent_phone : String
deriving DecidableEq

/-- JavaScript `a || b` on strings: the empty string is falsy. -/
def jsOr (v d : String) : String := if v = "" then d else v

/-- JavaScript `i.toString().padStart(3, '0')`. -/
def pad3 (n : Nat) : String :=
  let s := toString n
  String.mk (List.replicate (3 - s.length) '0') ++ s

/-- One iteration of the row loop of `parseCSVFromBuffer` (card.js lines
559-579): positional columns with per-column defaults; `i` is the index
of the line, used for the generated fallback identifier. -/
def mapStudent (i : Nat) (line : List Char) : StudentRec :=
  let values := parseCSVLine line
  { student_id := jsOr (values.getD 0 "") ("STU" ++ pad3 i)
    name := jsOr (values.getD 1 "") "Unknown Student"
    cls := jsOr (values.getD 2 "") "N/A"
    level := jsOr (values.getD 3 "") "N/A"
    residence := jsOr (values.getD 4 "") "N/A"
    gender := jsOr (values.getD 5 "") "N/A"
    academic_year := jsOr (values.getD 6 "") "2024"
    parent_phone := jsOr (values.getD 7 "") "" }

/-- `parseCSVFromBuffer` (card.js lines 539-586): split the buffer into
lines, drop blank lines, auto-detect a header by substring search for
the identifier or name column token in the lowercased first line, then
map the remaining lines positionally. -/
def parseCSVFromBuffer (csv : String) : List StudentRec :=
  let lines := (splitOnChar '\n' csv.data).filter (fun l => !(trimChars l).isEmpty)
  match lines with
  | [] => []
  | first :: _ =>
    let firstLower := first.map Char.toLower
    let startIndex :=
      if hasSub firstLower "student_id".data || hasSub firstLower "name".data then 1 else 0
    (lines.enum.drop startIndex).map (fun p => mapStudent p.1 (trimChars p.2))

example : parseCSVLine "a,\"b,c\",d".data = ["a", "b,c", "d"] := by decide
example : parseCSVLine "\"a\"\"b\"".data = ["a\"b"] := by decide
example : parseCSVLine "STU001,Jane Doe,P5,,,,,".data =
    ["STU001", "Jane Doe", "P5", "", "", "", "", ""] := by decide
example :
    parseCSVFromBuffer "STU001,Jane Doe,P5,,,,," =
      [{ student_id := "STU001", name := "Jane Doe", cls := "P5", level := "N/A",
         residence := "N/A", gender := "N/A", academic_year := "2024", parent_phone := "" }] := by
  decide

/-! ## CSV encoder used to state the quote-awareness of parseCSVLine -/

/-- Double every quote character, the escaping that `parseCSVLine`
undoes inside a quoted field. -/
def escQuotes : List Char → List Char
  | [] => []
  | c :: t => if c = '"' then '"' :: '"' :: escQuotes t else c :: escQuotes t

/-- Wrap a field in double quotes, doubling interior quotes. -/
def encodeField (f : List Char) : List Char := '"' :: (escQuotes f ++ ['"'])

/-- Join quoted fields with commas. -/
def encodeLine : List (List Char) → List Char
  | [] => []
  | [f] => encodeField f
  | f :: g :: rest => encodeField f ++ ',' :: encodeLine (g :: rest)

lemma splitCSV_nil (cur : List Char) (inQ : Bool) :
    splitCSVChars [] cur inQ = [cur] := rfl

lemma splitCSV_openQuote (l cur : List Char) :
    splitCSVChars ('"' :: l) cur false = splitCSVChars l cur true := by
  rw [splitCSVChars.eq_def]; simp

lemma splitCSV_escQuote (l cur : List Char) :
    splitCSVChars ('"' :: '"' :: l) cur true = splitCSVChars l (cur ++ ['"']) true := by
  simp [splitCSVChars]

lemma splitCSV_closeQuote_end (cur : List Char) :
    splitCSVChars ['"'] cur true = [cur] := by
  simp [splitCSVChars]

lemma splitCSV_closeQuote_comma (l cur : List Char) :
    splitCSVChars ('"' :: ',' :: l) cur true = splitCSVChars (',' :: l) cur false := by
  simp [splitCSVChars]

lemma splitCSV_comma (l cur : List Char) :
    splitCSVChars (',' :: l) cur false = cur :: splitCSVChars l [] false := by
  rw [splitCSVChars.eq_def]; simp

lemma splitCSV_inQuote_other (c : Char) (hc : c ≠ '"') (l cur : List Char) :
    splitCSVChars (c :: l) cur true = splitCSVChars l (cur ++ [c]) true := by
  rw [splitCSVChars.eq_def]; simp [hc]

/-- Inside a quoted region, the machine copies the escaped body verbatim,
turning each doubled quote back into a single quote. -/
lemma splitCSV_escBody (body : List Char) :
    ∀ (l cur : List Char),
      splitCSVChars (escQuotes body ++ l) cur true = splitCSVChars l (cur ++ body) true := by
  induction body with
  | nil => intro l cur; simp [escQuotes]
  | cons c t ih =>
    intro l cur
    by_cases hc : c = '"'
    · subst hc
      rw [show escQuotes ('"' :: t) = '"' :: '"' :: escQuotes t by simp [escQuotes]]
      rw [List.cons_append, List.cons_append, splitCSV_escQuote, ih]
      simp
    · rw [show escQuotes (c :: t) = c :: escQuotes t by simp [escQuotes, hc]]
      rw [List.cons_append, splitCSV_inQuote_other c hc, ih]
      simp

/-- Running the machine over an encoded line recovers the raw fields,
with the accumulator prepended to the first field. -/
lemma splitCSV_encodeLine (rest : List (List Char)) :
    ∀ (f cur : List Char),
      splitCSVChars (encodeLine (f :: rest)) cur false = (cur ++ f) :: rest := by
  induction rest with
  | nil =>
    intro f cur
    rw [show encodeLine [f] = '"' :: (escQuotes f ++ ['"']) from rfl]
    rw [splitCSV_openQuote, splitCSV_escBody, splitCSV_closeQuote_end]
  | cons g rest2 ih =>
    intro f cur
    rw [show encodeLine (f :: g :: rest2) =
          '"' :: ((escQuotes f ++ ['"']) ++ ',' :: encodeLine (g :: rest2)) from rfl]
    rw [splitCSV_openQuote, List.append_assoc, List.singleton_append, splitCSV_escBody,
      splitCSV_closeQuote_comma, splitCSV_comma, ih]
    simp


/-- C6: for every input line, `parseCSVLine` splits on commas except that
a comma inside a matched pair of double quotes is not a delimiter, and a
doubled double-quote inside a quoted field yields a single literal quote
character in the field value. Stated as a round trip: encoding any
nonempty list of (already trimmed) fields by quoting each one, doubling
its interior quotes and joining with commas, then parsing, recovers
exactly the original fields. -/
theorem csv_quote_aware_split (fields : List (List Char)) (h1 : fields ≠ [])
    (h2 : ∀ f ∈ fields, trimChars f = f) :
    parseCSVLine (encodeLine fields) = fields.map String.mk := by
  match fields, h1 with
  | f :: rest, _ =>
    unfold parseCSVLine
    rw [splitCSV_encodeLine rest f []]
    simp only [List.nil_append]
    exact List.map_congr_left (fun x hx => by rw [h2 x hx])

/-- Witness for C6 at a concrete field list containing both an embedded
comma and an embedded quote. -/
theorem csv_quote_aware_split_witness :
    parseCSVLine (encodeLine [['a', ','], ['b', '"', 'c']]) =
      [String.mk ['a', ','], String.mk ['b', '"', 'c']] :=
  csv_quote_aware_split [['a', ','], ['b', '"', 'c']] (by decide) (by decide)

/-- C2 counterexample: the header-less line
STU001,Jane Doe,P5,,,,, does not parse to the record the claim states,
because the code defaults a blank academic year column to 2024, not to
N/A. -/
theorem parse_jane_doe_counterexample :
    parseCSVFromBuffer "STU001,Jane Doe,P5,,,,," ≠
      [{ student_id := "STU001", name := "Jane Doe", cls := "P5", level := "N/A",
         residence := "N/A", gender := "N/A", academic_year := "N/A", parent_phone := "" }] := by
  decide

/-- C2 amended: the line STU001,Jane Doe,P5,,,,, parses to the claimed
record except that academic_year defaults to 2024 (card.js line 574). -/
theorem parse_jane_doe_amended :
    parseCSVFromBuffer "STU001,Jane Doe,P5,,,,," =
      [{ student_id := "STU001", name := "Jane Doe", cls := "P5", level := "N/A",
         residence := "N/A", gender := "N/A", academic_year := "2024", parent_phone := "" }] := by
  decide

/-- C10: header detection treats the lowercased first line as a header
whenever it contains the substring name (or student_id) anywhere, so a
header-less roster of two data lines whose first line has name inside
the value Onamet Hall loses its first student: only one record is
returned, built from the second line. -/
theorem header_detection_skips_first_line :
    hasSub ("STU001,Onamet Hall,P5".data.map Char.toLower) "name".data = true ∧
    ((splitOnChar '\n' "STU001,Onamet Hall,P5\nSTU002,Bob,P4".data).filter
        (fun l => !(trimChars l).isEmpty)).length = 2 ∧
    parseCSVFromBuffer "STU001,Onamet Hall,P5\nSTU002,Bob,P4" =
      [{ student_id := "STU002", name := "Bob", cls := "P4", level := "N/A",
         residence := "N/A", gender := "N/A", academic_year := "2024", parent_phone := "" }] := by
  refine ⟨by decide, by decide, by decide⟩

/-! ## CardCompositor: text truncation (addText, both variants)

Canvas text measurement is modelled by an arbitrary function
`m : List Char → Nat` giving the rendered pixel width of a string
(the embedding never assumes monotonicity). -/

/-- The three-dot ellipsis appended on truncation. -/
def ell : List Char := ['.', '.', '.']

/-- The character-dropping while loop shared by both addText variants,
operating on the REVERSED candidate so that dropping the last character
is structural; `go` is the loop guard applied to the reversed candidate. -/
def truncWhile (go : List Char → Prop) [DecidablePred go] : List Char → List Char
  | [] => []
  | c :: rest => if go (c :: rest) then truncWhile go rest else c :: rest

/-- Loop guard of the first variant (card.js lines 763-765): measure the
candidate WITHOUT the ellipsis, stop at three characters. -/
def goV1 (m : List Char → Nat) (w : Nat) (rl : List Char) : Prop :=
  m rl.reverse > w ∧ rl.length > 3

instance (m : List Char → Nat) (w : Nat) : DecidablePred (goV1 m w) := fun rl => by
  unfold goV1; exact instDecidableAnd

/-- Loop guard of the second variant (card.js lines 1659-1661): measure
the candidate WITH the ellipsis appended, stop at one character. -/
def goV2 (m : List Char → Nat) (w : Nat) (rl : List Char) : Prop :=
  m (rl.reverse ++ ell) > w ∧ rl.length > 1

instance (m : List Char → Nat) (w : Nat) : DecidablePred (goV2 m w) := fun rl => by
  unfold goV2; exact instDecidableAnd

/-- Displayed string computed by the first variant of addText when a
maxWidth is given (card.js lines 761-767): run the drop loop, then
append the ellipsis iff the result differs from the original text. -/
def displayV1 (m : List Char → Nat) (w : Nat) (t : List Char) : List Char :=
  let cand := (truncWhile (goV1 m w) t.reverse).reverse
  if cand = t then cand else cand ++ ell

/-- Displayed string computed by the second variant of addText when a
maxWidth is given (card.js lines 1653-1664): only if the BARE text
measures wider than maxWidth, run the drop loop and append the ellipsis
unconditionally; otherwise render the text unchanged. -/
def displayV2 (m : List Char → Nat) (w : Nat) (t : List Char) : List Char :=
  if m t > w then (truncWhile (goV2 m w) t.reverse).reverse ++ ell else t

/-- The truncation algorithm exactly as the claim words it: always run
the drop loop (measuring candidate plus ellipsis, minimum one
character), then append an ellipsis iff at least one character was
dropped. -/
def truncClaimAlg (m : List Char → Nat) (w : Nat) (t : List Char) : List Char :=
  let cand := (truncWhile (goV2 m w) t.reverse).reverse
  if cand = t then cand else cand ++ ell

/-- The drop loop returns the longest suffix of its input on which the
guard fails (guards fail on the empty list). -/
lemma truncWhile_spec (go : List Char → Prop) [DecidablePred go] (h0 : ¬ go []) :
    ∀ l : List Char,
      truncWhile go l <:+ l ∧ ¬ go (truncWhile go l) ∧
        ∀ q, q <:+ l → (truncWhile go l).length < q.length → go q := by
  intro l
  induction l with
  | nil =>
    refine ⟨List.suffix_rfl, h0, ?_⟩
    intro q hq hlen
    exact absurd (Nat.lt_of_lt_of_le hlen hq.length_le) (by simp [truncWhile])
  | cons c rest ih =>
    by_cases hgo : go (c :: rest)
    · rw [show truncWhile go (c :: rest) = truncWhile go rest by simp [truncWhile, hgo]]
      refine ⟨ih.1.trans (List.suffix_cons c rest), ih.2.1, ?_⟩
      intro q hq hlen
      rcases List.suffix_cons_iff.mp hq with h | h
      · rw [h]; exact hgo
      · exact ih.2.2 q h hlen
    · rw [show truncWhile go (c :: rest) = c :: rest by simp [truncWhile, hgo]]
      refine ⟨List.suffix_rfl, hgo, ?_⟩
      intro q hq hlen
      exact absurd (Nat.lt_of_lt_of_le hlen hq.length_le) (Nat.lt_irrefl _)

example : displayV2 List.length 6 "abcde".data = "abcde".data := by decide
example : truncClaimAlg List.length 6 "abcde".data = "abc...".data := by decide

/-- C4 counterexample: with the width measure that counts characters and
maxWidth 6, the text abcde fits bare (width 5) so the code renders it
unchanged, while the algorithm the claim describes measures candidate
plus ellipsis (width 8), drops characters and renders abc followed by
the ellipsis. The claimed equality between the rendered string and the
claim algorithm therefore fails at this input. -/
theorem truncation_rule_counterexample :
    displayV2 List.length 6 "abcde".data = "abcde".data ∧
    truncClaimAlg List.length 6 "abcde".data = "abc...".data ∧
    displayV2 List.length 6 "abcde".data ≠ truncClaimAlg List.length 6 "abcde".data := by
  refine ⟨by decide, by decide, by decide⟩

/-- C4 amended: in the second addText variant, truncation runs only when
the BARE text measures wider than maxWidth; the loop then drops the last
character while (candidate + ellipsis) measures wider than maxWidth and
the candidate keeps more than one character, and the ellipsis is
appended unconditionally on that path; text whose bare width fits is
rendered unchanged. The resulting kept prefix is the longest prefix
satisfying the stop condition. In the first variant, the loop measures
the candidate WITHOUT the ellipsis and stops at three characters, and
the ellipsis is appended iff the final candidate differs from the
original text. -/
theorem truncation_rule_amended (m : List Char → Nat) (w : Nat) (t : List Char) :
    (m t ≤ w → displayV2 m w t = t) ∧
    (m t > w → ∃ p, p <+: t ∧ displayV2 m w t = p ++ ell ∧
        (m (p ++ ell) ≤ w ∨ p.length ≤ 1) ∧
        ∀ q, q <+: t → p.length < q.length → m (q ++ ell) > w ∧ q.length > 1) ∧
    (∃ p, p <+: t ∧ (m p ≤ w ∨ p.length ≤ 3) ∧
        (∀ q, q <+: t → p.length < q.length → m q > w ∧ q.length > 3) ∧
        displayV1 m w t = if p = t then t else p ++ ell) := by
  obtain ⟨hs2, hstop2, hlong2⟩ :=
    truncWhile_spec (goV2 m w) (by simp [goV2]) t.reverse
  obtain ⟨hs1, hstop1, hlong1⟩ :=
    truncWhile_spec (goV1 m w) (by simp [goV1]) t.reverse
  refine ⟨?_, ?_, ?_⟩
  · intro h
    simp [displayV2, Nat.not_lt.mpr h]
  · intro h
    refine ⟨(truncWhile (goV2 m w) t.reverse).reverse, ?_, ?_, ?_, ?_⟩
    · exact List.reverse_suffix.mp (by simpa using hs2)
    · simp [displayV2, h]
    · rw [goV2] at hstop2
      push_neg at hstop2
      rcases Nat.lt_or_ge w (m ((truncWhile (goV2 m w) t.reverse).reverse ++ ell)) with hlt | hle
      · exact Or.inr (by simpa using hstop2 hlt)
      · exact Or.inl hle
    · intro q hq hlen
      have hqs : q.reverse <:+ t.reverse := List.reverse_suffix.mpr hq
      have := hlong2 q.reverse hqs (by simpa using hlen)
      rw [goV2] at this
      simpa using this
  · refine ⟨(truncWhile (goV1 m w) t.reverse).reverse, ?_, ?_, ?_, ?_⟩
    · exact List.reverse_suffix.mp (by simpa using hs1)
    · rw [goV1] at hstop1
      push_neg at hstop1
      rcases Nat.lt_or_ge w (m (truncWhile (goV1 m w) t.reverse).reverse) with hlt | hle
      · exact Or.inr (by simpa using hstop1 hlt)
      · exact Or.inl hle
    · intro q hq hlen
      have hqs : q.reverse <:+ t.reverse := List.reverse_suffix.mpr hq
      have := hlong1 q.reverse hqs (by simpa using hlen)
      rw [goV1] at this
      simpa using this
    · by_cases hpt : (truncWhile (goV1 m w) t.reverse).reverse = t
      · simp [displayV1, hpt]
      · simp [displayV1, hpt]

/-- Witness for C4 amended at the character-count measure: abcde fits a
maxWidth of 6 and is rendered unchanged by the second variant. -/
theorem truncation_rule_witness :
    displayV2 List.length 6 "abcde".data = "abcde".data :=
  (truncation_rule_amended List.length 6 "abcde".data).1 (by decide)

/-! ## CardCompositor: generateCardsWithCloudinary (card.js lines 700-831)

Image loading is external I/O: each `loadImage` call is modelled by an
oracle field of `RenderEnv` recording whether that load succeeds and, if
so, the decoded image dimensions. The canvas is modelled as the list of
drawing operations performed on it. -/

/-- A decoded image (only its pixel dimensions matter to the core). -/
structure Img where
  width : Nat
  height : Nat
deriving DecidableEq

/-- One rectangle of the CoordinateMap:
`{x, y, width?, height?, maxWidth?}`. -/
structure Coord where
  x : Int := 0
  y : Int := 0
  width : Int := 0
  height : Int := 0
  maxWidth : Option Nat := none
deriving DecidableEq

/-- The CoordinateMap: an optional rectangle per drawable field. -/
structure Coordinates where
  photo : Option Coord := none
  name : Option Coord := none
  cls : Option Coord := none
  level : Option Coord := none
  gender : Option Coord := none
  residence : Option Coord := none
  academic_year : Option Coord := none
deriving DecidableEq

/-- Drawing operations performed on the front canvas, in order. -/
inductive DrawOp where
  | template (img : Img)
  | photoBorder (c : Coord)
  | photoImage (img : Img) (c : Coord)
  | placeholderRect (c : Coord)
  | glyphCentered (c : Coord)
  | text (s : List Char) (fontSize : Nat) (isBold : Bool) (c : Coord)
deriving DecidableEq

/-- TemplateSpec: front image reference plus optional back reference. -/
structure Template where
  frontUrl : String
  backUrl : Option String := none
deriving DecidableEq

/-- Oracle outcomes of the external image loads performed while
rendering one student, plus the canvas text-measurement function
(indexed by font size and weight). -/
structure RenderEnv where
  loadFront : Except Unit Img
  loadPhoto : Except Unit Img
  loadBack : Except Unit Img
  measure : Nat → Bool → List Char → Nat

/-- `drawPhotoPlaceholder` (card.js lines 814-831): a translucent
rounded rectangle filling the photo rectangle with a camera glyph drawn
at its center. -/
def drawPhotoPlaceholder (c : Coord) : List DrawOp :=
  [DrawOp.placeholderRect c, DrawOp.glyphCentered c]

/-- The photo branch of the compositor (card.js lines 717-747): when a
photo URL and a photo rectangle are both present, try to load the photo
and draw border plus clipped image; a load failure is caught and degrades
to the placeholder. With no URL but a rectangle, draw the placeholder
directly. Without a rectangle, draw nothing. -/
def photoOps (env : RenderEnv) (studentPhotoUrl : Option String) (pc : Option Coord) :
    List DrawOp :=
  match studentPhotoUrl, pc with
  | some _, some c =>
    match env.loadPhoto with
    | .ok img => [DrawOp.photoBorder c, DrawOp.photoImage img c]
    | .error _ => drawPhotoPlaceholder c
  | none, some c => drawPhotoPlaceholder c
  | _, none => []

/-- `addText` of the first variant (card.js lines 755-770): skip empty
text or a missing rectangle, truncate per `displayV1` when the rectangle
carries a maxWidth, then draw at the rectangle origin. -/
def addTextV1 (measure : Nat → Bool → List Char → Nat) (t : List Char)
    (coord : Option Coord) (fontSize : Nat) (isBold : Bool) : List DrawOp :=
  match coord with
  | none => []
  | some c =>
    if t = [] then []
    else
      let disp :=
        match c.maxWidth with
        | none => t
        | some w => displayV1 (measure fontSize isBold) w t
      [DrawOp.text disp fontSize isBold c]

/-- Outcome of the back-side block (card.js lines 784-802): draw the
back template if one is referenced and loads, a white-filled canvas if
none is referenced, and a fresh blank canvas if the load fails (the
catch branch). This block never throws. -/
inductive BackSide where
  | fromTemplate (img : Img)
  | whiteFill
  | blank
deriving DecidableEq

def backOf (env : RenderEnv) (tmpl : Template) : BackSide :=
  match tmpl.backUrl with
  | some _ =>
    match env.loadBack with
    | .ok img => BackSide.fromTemplate img
    | .error _ => BackSide.blank
  | none => BackSide.whiteFill

/-- The front/back pair produced for one student: the ordered front
canvas operations stand for the encoded front image, `back` for the
encoded back image. -/
structure RenderResult where
  frontOps : List DrawOp
  back : BackSide
deriving DecidableEq

/-- `generateCardsWithCloudinary` (card.js lines 700-811): load the
front template (the only failure that escapes to the caller), draw it,
run the photo branch, draw the six text fields at the call-site font
sizes (name 28 bold, class and level 20, gender, residence and academic
year 18), then produce the back side. -/
def generateCardsWithCloudinary (env : RenderEnv) (student : StudentRec)
    (template : Template) (coordinates : Coordinates)
    (studentPhotoUrl : Option String) : Except Unit RenderResult :=
  match env.loadFront with
  | .error e => .error e
  | .ok timg =>
    let ops := [DrawOp.template timg]
      ++ photoOps env studentPhotoUrl coordinates.photo
      ++ addTextV1 env.measure student.name.data coordinates.name 28 true
      ++ addTextV1 env.measure student.cls.data coordinates.cls 20 false
      ++ addTextV1 env.measure student.level.data coordinates.level 20 false
      ++ addTextV1 env.measure student.gender.data coordinates.gender 18 false
      ++ addTextV1 env.measure student.residence.data coordinates.residence 18 false
      ++ addTextV1 env.measure student.academic_year.data coordinates.academic_year 18 false
    .ok { frontOps := ops, back := backOf env template }

/-- C5: whenever the photo rectangle is present in the CoordinateMap and
the photo is absent (no URL) or its bytes fail to decode (the load
oracle errors), the compositor draws the translucent placeholder
rectangle and the centered glyph in that rectangle, and the render still
returns a front/back pair: no error from the photo path reaches the
caller (only a front-template failure can). -/
theorem photo_placeholder_on_failure (env : RenderEnv) (student : StudentRec)
    (template : Template) (coordinates : Coordinates)
    (studentPhotoUrl : Option String) (r : Coord) (timg : Img)
    (hfront : env.loadFront = .ok timg)
    (hrect : coordinates.photo = some r)
    (hphoto : studentPhotoUrl = none ∨ env.loadPhoto = .error ()) :
    ∃ res : RenderResult,
      generateCardsWithCloudinary env student template coordinates studentPhotoUrl = .ok res ∧
      DrawOp.placeholderRect r ∈ res.frontOps ∧ DrawOp.glyphCentered r ∈ res.frontOps := by
  refine ⟨_, by rw [generateCardsWithCloudinary, hfront], ?_, ?_⟩ <;>
  · simp only [List.mem_append, List.cons_append, List.nil_append, List.mem_cons]
    rcases hphoto with h | h
    · simp [photoOps, hrect, h, drawPhotoPlaceholder]
    · cases studentPhotoUrl <;> simp [photoOps, hrect, h, drawPhotoPlaceholder]

/-- Witness for C5: a concrete student with a photo URL whose load
fails; the placeholder operations appear and the render succeeds. -/
theorem photo_placeholder_on_failure_witness :
    ∃ res : RenderResult,
      generateCardsWithCloudinary
        { loadFront := .ok { width := 600, height := 400 },
          loadPhoto := .error (), loadBack := .error (),
          measure := fun _ _ s => s.length }
        { student_id := "STU001", name := "Jane Doe", cls := "P5", level := "N/A",
          residence := "N/A", gender := "N/A", academic_year := "2024", parent_phone := "" }
        { frontUrl := "front.png" }
        { photo := some { x := 10, y := 20, width := 100, height := 120 } }
        (some "photo.jpg") = .ok res ∧
      DrawOp.placeholderRect { x := 10, y := 20, width := 100, height := 120 } ∈ res.frontOps ∧
      DrawOp.glyphCentered { x := 10, y := 20, width := 100, height := 120 } ∈ res.frontOps :=
  photo_placeholder_on_failure _ _ _ _ _ _ _ rfl rfl (Or.inr rfl)

/-! ## Font sizing (C8): getFontStyle of the second variant, and the
fixed call-site sizes of the first variant -/

/-- The six drawable text fields. -/
inductive CardField where
  | name | cls | level | residence | gender | academic_year
deriving DecidableEq

/-- Width-tier base size of `getFontStyle` (card.js lines 1598-1606). -/
def baseSizeV2 (templateWidth : Nat) : Nat :=
  if templateWidth ≥ 1000 then 28
  else if templateWidth ≥ 800 then 20
  else 16

/-- `getFontStyle` (card.js lines 1597-1634), as the (size, isBold) pair
carried by the produced font string: name at base + 4 bold, every other
field at the base size with normal weight. -/
def getFontStyle (field : CardField) (templateWidth : Nat) : Nat × Bool :=
  let baseSize := baseSizeV2 templateWidth
  match field with
  | .name => (baseSize + 4, true)
  | _ => (baseSize, false)

/-- The fixed (fontSize, isBold) arguments of the addText call sites in
the first variant (card.js lines 773-778), independent of the template
dimensions. -/
def fontArgsV1 : CardField → Nat × Bool
  | .name => (28, true)
  | .cls => (20, false)
  | .level => (20, false)
  | .gender => (18, false)
  | .residence => (18, false)
  | .academic_year => (18, false)

lemma addTextV1_text_mem (measure : Nat → Bool → List Char → Nat) (t : List Char)
    (coord : Option Coord) (fs : Nat) (bold : Bool) (s : List Char) (sz : Nat)
    (b : Bool) (c : Coord)
    (h : DrawOp.text s sz b c ∈ addTextV1 measure t coord fs bold) :
    sz = fs ∧ b = bold := by
  cases coord with
  | none => simp [addTextV1] at h
  | some cc =>
    by_cases ht : t = []
    · simp [addTextV1, ht] at h
    · simp [addTextV1, ht] at h
      exact ⟨h.2.1, h.2.2.1⟩

lemma photoOps_no_text (env : RenderEnv) (url : Option String) (pc : Option Coord)
    (s : List Char) (sz : Nat) (b : Bool) (c : Coord) :
    DrawOp.text s sz b c ∉ photoOps env url pc := by
  cases url <;> cases pc <;>
    simp [photoOps, drawPhotoPlaceholder] <;>
  · cases env.loadPhoto <;> simp

/-- C8 counterexample: in the first variant the font sizes are fixed
constants, so within a single render (one fixed template width) the
class field is drawn at size 20 while the gender field is drawn at size
18; two non-name fields do not share one width-tier base size, refuting
the claimed tier selection for every rendered text field. -/
theorem font_tier_counterexample :
    generateCardsWithCloudinary
        { loadFront := .ok { width := 600, height := 400 },
          loadPhoto := .error (), loadBack := .error (),
          measure := fun _ _ s => s.length }
        { student_id := "STU001", name := "Jane Doe", cls := "P5", level := "N/A",
          residence := "N/A", gender := "M", academic_year := "2024", parent_phone := "" }
        { frontUrl := "front.png" }
        { cls := some { x := 1, y := 2 }, gender := some { x := 3, y := 4 } }
        none =
      .ok { frontOps := [DrawOp.template { width := 600, height := 400 },
                         DrawOp.text "P5".data 20 false { x := 1, y := 2 },
                         DrawOp.text "M".data 18 false { x := 3, y := 4 }],
            back := BackSide.whiteFill } ∧
    (20 : Nat) ≠ 18 := by
  refine ⟨rfl, by decide⟩

/-- C8 amended: only the second variant tiers the font size by template
width (width at least 1000 gives base 28, at least 800 gives 20,
otherwise 16), rendering name at base + 4 bold and every other field at
the base size with normal weight; the first variant draws every text
field at fixed sizes independent of template width (name 28 bold, class
and level 20, gender, residence and academic year 18, normal weight). -/
theorem font_style_amended (w : Nat) (f : CardField) :
    (1000 ≤ w → baseSizeV2 w = 28) ∧
    (800 ≤ w → w < 1000 → baseSizeV2 w = 20) ∧
    (w < 800 → baseSizeV2 w = 16) ∧
    getFontStyle CardField.name w = (baseSizeV2 w + 4, true) ∧
    (f ≠ CardField.name → getFontStyle f w = (baseSizeV2 w, false)) ∧
    (∀ (env : RenderEnv) (st : StudentRec) (tmpl : Template) (co : Coordinates)
        (url : Option String) (res : RenderResult),
      generateCardsWithCloudinary env st tmpl co url = .ok res →
      ∀ (s : List Char) (sz : Nat) (b : Bool) (c : Coord),
        DrawOp.text s sz b c ∈ res.frontOps →
          (sz, b) = fontArgsV1 CardField.name ∨ (sz, b) = fontArgsV1 CardField.cls ∨
          (sz, b) = fontArgsV1 CardField.gender) := by
  refine ⟨?_, ?_, ?_, ?_, ?_, ?_⟩
  · intro h; simp [baseSizeV2, h]
  · intro h1 h2; simp [baseSizeV2, h1, Nat.not_le.mpr h2]
  · intro h
    have h2 : ¬ 1000 ≤ w := by omega
    have h3 : ¬ 800 ≤ w := by omega
    simp [baseSizeV2, h2, h3]
  · rfl
  · intro hf; cases f <;> simp [getFontStyle] <;> exact absurd rfl hf
  · intro env st tmpl co url res h s sz b c hmem
    cases hf : env.loadFront with
    | error e => rw [generateCardsWithCloudinary, hf] at h; exact absurd h (by simp)
    | ok timg =>
      rw [generateCardsWithCloudinary, hf] at h
      injection h with h
      rw [← h] at hmem
      simp only [List.cons_append, List.nil_append] at hmem
      rcases List.mem_cons.mp hmem with heq | hmem
      · exact absurd heq (by simp)
      rcases List.mem_append.mp hmem with hmem | hlast
      rcases List.mem_append.mp hmem with hmem | h5
      rcases List.mem_append.mp hmem with hmem | h4
      rcases List.mem_append.mp hmem with hmem | h3
      rcases List.mem_append.mp hmem with hmem | h2
      rcases List.mem_append.mp hmem with hp | h1
      · exact absurd hp (photoOps_no_text env url co.photo s sz b c)
      · obtain ⟨h1a, h1b⟩ := addTextV1_text_mem _ _ _ _ _ _ _ _ _ h1
        subst h1a; subst h1b; exact Or.inl rfl
      · obtain ⟨h2a, h2b⟩ := addTextV1_text_mem _ _ _ _ _ _ _ _ _ h2
        subst h2a; subst h2b; exact Or.inr (Or.inl rfl)
      · obtain ⟨h3a, h3b⟩ := addTextV1_text_mem _ _ _ _ _ _ _ _ _ h3
        subst h3a; subst h3b; exact Or.inr (Or.inl rfl)
      · obtain ⟨h4a, h4b⟩ := addTextV1_text_mem _ _ _ _ _ _ _ _ _ h4
        subst h4a; subst h4b; exact Or.inr (Or.inr rfl)
      · obtain ⟨h5a, h5b⟩ := addTextV1_text_mem _ _ _ _ _ _ _ _ _ h5
        subst h5a; subst h5b; exact Or.inr (Or.inr rfl)
      · obtain ⟨ha, hb⟩ := addTextV1_text_mem _ _ _ _ _ _ _ _ _ hlast
        subst ha; subst hb; exact Or.inr (Or.inr rfl)

/-- Witness for C8 amended: a medium template (width 900) gives base 20
for the class field, and a large template (width 1200) gives base 28. -/
theorem font_style_amended_witness :
    getFontStyle CardField.cls 900 = (20, false) ∧ baseSizeV2 1200 = 28 := by
  constructor
  · rw [(font_style_amended 900 CardField.cls).2.2.2.2.1 (by decide)]
    rw [(font_style_amended 900 CardField.cls).2.1 (by decide) (by decide)]
  · exact (font_style_amended 1200 CardField.cls).1 (by decide)

/-! ## CardPackager and the batch loop (card.js lines 240-285)

Each student of the batch carries its own render oracle and the outcome
of the post-render ledger save. The archive is the ordered list of
appended entries; the generated counter models `generatedCount`. -/

/-- One entry appended to the outgoing zip stream. -/
structure ArchiveEntry where
  entryName : String
deriving DecidableEq

def frontEntry (sid : String) : ArchiveEntry := ⟨sid ++ "/front-side.png"⟩

def backEntry (sid : String) : ArchiveEntry := ⟨sid ++ "/back-side.png"⟩

/-- Boolean success test for a modelled JavaScript call. -/
def exceptOk {ε α : Type} : Except ε α → Bool
  | .ok _ => true
  | .error _ => false

/-- One student of the batch loop: the saved record, its photo URL, the
render oracle and the outcome of the post-render `student.save()`. -/
structure BatchStudent where
  srec : StudentRec
  photoUrl : Option String
  env : RenderEnv
  ledgerSaveOk : Bool

/-- Whether this student's render completes (it reaches front-image
encoding exactly when the front template load succeeds). -/
def renderOk (tmpl : Template) (coords : Coordinates) (s : BatchStudent) : Bool :=
  exceptOk (generateCardsWithCloudinary s.env s.srec tmpl coords s.photoUrl)

/-- The two archive entries a student contributes, or none if its render
throws. -/
def entriesFor (tmpl : Template) (coords : Coordinates) (s : BatchStudent) :
    List ArchiveEntry :=
  if renderOk tmpl coords s then
    [frontEntry s.srec.student_id, backEntry s.srec.student_id]
  else []

/-- One iteration of the batch loop (card.js lines 247-281): render; on
success append the two entries, then attempt the ledger save, and bump
`generatedCount` only if the save did not throw; any throw inside the
iteration is caught and the loop continues with the next student. -/
def batchStep (tmpl : Template) (coords : Coordinates)
    (acc : List ArchiveEntry × Nat) (s : BatchStudent) : List ArchiveEntry × Nat :=
  match generateCardsWithCloudinary s.env s.srec tmpl coords s.photoUrl with
  | .error _ => acc
  | .ok _ =>
    let entries := acc.1 ++ [frontEntry s.srec.student_id, backEntry s.srec.student_id]
    if s.ledgerSaveOk then (entries, acc.2 + 1) else (entries, acc.2)

/-- The whole batch loop over the saved students. -/
def batchRun (tmpl : Template) (coords : Coordinates) (students : List BatchStudent) :
    List ArchiveEntry × Nat :=
  students.foldl (batchStep tmpl coords) ([], 0)

lemma batchStep_fst (tmpl : Template) (coords : Coordinates)
    (acc : List ArchiveEntry × Nat) (s : BatchStudent) :
    (batchStep tmpl coords acc s).1 = acc.1 ++ entriesFor tmpl coords s := by
  rcases hgen : generateCardsWithCloudinary s.env s.srec tmpl coords s.photoUrl with e | v
  · simp [batchStep, hgen, entriesFor, renderOk, exceptOk]
  · rcases hsave : s.ledgerSaveOk <;>
      simp [batchStep, hgen, hsave, entriesFor, renderOk, exceptOk]

lemma batchRun_entries (tmpl : Template) (coords : Coordinates) :
    ∀ (students : List BatchStudent) (acc : List ArchiveEntry × Nat),
      (students.foldl (batchStep tmpl coords) acc).1 =
        acc.1 ++ students.flatMap (entriesFor tmpl coords) := by
  intro students
  induction students with
  | nil => intro acc; simp
  | cons s rest ih =>
    intro acc
    rw [List.foldl_cons, ih, batchStep_fst, List.flatMap_cons, List.append_assoc]

lemma flatMap_entriesFor_length (tmpl : Template) (coords : Coordinates) :
    ∀ students : List BatchStudent,
      (students.flatMap (entriesFor tmpl coords)).length =
        2 * students.countP (renderOk tmpl coords) := by
  intro students
  induction students with
  | nil => simp
  | cons s rest ih =>
    rcases h : renderOk tmpl coords s <;>
      simp [entriesFor, h, ih, List.countP_cons, Nat.mul_add]

/-- C1: the batch archive receives exactly the entries of the students
whose render completed (two per such student, in processing order), so
the entry count is exactly twice the number of students whose render
reached front-image encoding; a student whose render throws contributes
no entries while every other student is still processed, and a render
completes exactly when the front template load succeeds (everything
after the front-image encoding is guarded and cannot throw). -/
theorem batch_archive_entry_count (tmpl : Template) (coords : Coordinates)
    (students : List BatchStudent) :
    (batchRun tmpl coords students).1 = students.flatMap (entriesFor tmpl coords) ∧
    (batchRun tmpl coords students).1.length =
      2 * students.countP (renderOk tmpl coords) ∧
    ∀ s : BatchStudent,
      renderOk tmpl coords s = exceptOk s.env.loadFront := by
  refine ⟨?_, ?_, ?_⟩
  · rw [batchRun, batchRun_entries]; rfl
  · rw [batchRun, batchRun_entries]
    show (students.flatMap (entriesFor tmpl coords)).length = _
    rw [flatMap_entriesFor_length]
  · intro s
    rcases h : s.env.loadFront with e | v <;>
      simp [renderOk, generateCardsWithCloudinary, h, exceptOk]

/-! ## The roster-persist phase (card.js lines 158-215) feeding the
batch loop -/

/-- One roster row with its persistence outcome during the save loop
(`savedStudents`): a row whose save throws is logged and NOT pushed. -/
structure RosterStudent where
  srec : StudentRec
  rosterSaveOk : Bool
  photoUrl : Option String
  env : RenderEnv
  ledgerSaveOk : Bool

/-- The `savedStudents` list: only rows whose save succeeded. -/
def savedStudentsOf (roster : List RosterStudent) : List BatchStudent :=
  (roster.filter (fun r => r.rosterSaveOk)).map
    (fun r => { srec := r.srec, photoUrl := r.photoUrl, env := r.env,
                ledgerSaveOk := r.ledgerSaveOk })

/-- Entries streamed for a whole batch request: save loop, then the
generation loop over the saved students. -/
def pipelineEntries (tmpl : Template) (coords : Coordinates)
    (roster : List RosterStudent) : List ArchiveEntry :=
  (batchRun tmpl coords (savedStudentsOf roster)).1

/-- C3 counterexample: a student whose roster-phase save fails is never
pushed to savedStudents, so even though its render oracle would succeed,
the batch produces no archive entries for it: the persistence failure
does prevent the images from being packaged, contrary to the claim. -/
theorem roster_save_failure_counterexample :
    pipelineEntries { frontUrl := "front.png" } {}
        [{ srec := { student_id := "STU001", name := "Jane Doe", cls := "P5",
                     level := "N/A", residence := "N/A", gender := "N/A",
                     academic_year := "2024", parent_phone := "" },
           rosterSaveOk := false,
           photoUrl := none,
           env := { loadFront := .ok { width := 600, height := 400 },
                    loadPhoto := .error (), loadBack := .error (),
                    measure := fun _ _ s => s.length },
           ledgerSaveOk := true }] = [] ∧
    exceptOk
        (Except.ok { width := 600, height := 400 } : Except Unit Img) = true := by
  refine ⟨rfl, rfl⟩

/-- C3 amended: a failure of the post-render ledger save is only logged
and cannot remove the student's two entries, because both appends
precede the save (the streamed entries never depend on the ledger-save
outcomes); but a failure during the roster-persist phase excludes the
student from savedStudents, so that student is never rendered and
contributes zero entries. -/
theorem persistence_failure_amended (tmpl : Template) (coords : Coordinates)
    (roster : List RosterStudent) :
    pipelineEntries tmpl coords roster =
      (roster.filter (fun r => r.rosterSaveOk)).flatMap
        (fun r =>
          if exceptOk (generateCardsWithCloudinary r.env r.srec tmpl coords r.photoUrl) then
            [frontEntry r.srec.student_id, backEntry r.srec.student_id]
          else []) := by
  rw [pipelineEntries, batchRun, batchRun_entries, savedStudentsOf, List.flatMap_map]
  rfl

/-! ## The two endpoints (C9): process-csv-generate (card.js lines
116-296) and generate-single-card (card.js lines 42-113)

JSON.parse of the coordinates document is external input handling: its
outcome is an oracle field (`none` when no coordinates field was sent,
`some (.error ())` when the document is present but not valid JSON). -/

/-- Responses the modelled endpoints can produce. -/
inductive Resp where
  | badRequest (msg : String)
  | notFound (msg : String)
  | serverError
  | zipStream (entries : List ArchiveEntry)
deriving DecidableEq

/-- The batch request together with its lookup and parse oracles. -/
structure BatchReq where
  csvPresent : Bool
  csv : String
  templateIdPresent : Bool
  template : Option Template
  photoZipPresent : Bool
  photoUploads : List String
  coordsRaw : Option (Except Unit Coordinates)

/-- Observable effects of one batch request: which photo ids were
uploaded, which roster rows were persisted, and the response. -/
structure BatchOutcome where
  uploadedPhotos : List String
  persisted : List StudentRec
  resp : Resp

/-- The `process-csv-generate` handler of the first variant: validate,
parse the roster, upload photos, persist the rows, look the template up,
THEN parse the coordinates document with no try/catch around it - a
parse throw propagates to the route-level catch, which answers 500,
after the uploads and saves already happened. -/
def processCsvGenerate (req : BatchReq) (rosterSaveOk : StudentRec → Bool)
    (envOf : StudentRec → RenderEnv) (photoUrlOf : StudentRec → Option String)
    (ledgerOk : StudentRec → Bool) : BatchOutcome :=
  if !req.csvPresent then
    { uploadedPhotos := [], persisted := [], resp := .badRequest "CSV file is required" }
  else if !req.templateIdPresent then
    { uploadedPhotos := [], persisted := [], resp := .badRequest "Template ID is required" }
  else
    let students := parseCSVFromBuffer req.csv
    let uploaded := if req.photoZipPresent then req.photoUploads else []
    let saved := students.filter rosterSaveOk
    match req.template with
    | none =>
      { uploadedPhotos := uploaded, persisted := saved,
        resp := .notFound "Template not found" }
    | some tmpl =>
      match (match req.coordsRaw with | none => Except.ok ({} : Coordinates) | some r => r) with
      | .error _ =>
        { uploadedPhotos := uploaded, persisted := saved, resp := .serverError }
      | .ok coords =>
        { uploadedPhotos := uploaded, persisted := saved,
          resp := .zipStream
            (batchRun tmpl coords
              (saved.map (fun r =>
                { srec := r, photoUrl := photoUrlOf r, env := envOf r,
                  ledgerSaveOk := ledgerOk r }))).1 }

/-- The single-card request with its oracles; `ledgerSaveOk` is the
outcome of the post-render tracking `student.save()` (card.js line 97). -/
structure SingleReq where
  studentIdPresent : Bool
  templateIdPresent : Bool
  coordsRaw : Option (Except Unit Coordinates)
  template : Option Template
  student : Option StudentRec
  photoUrl : Option String
  env : RenderEnv
  ledgerSaveOk : Bool

/-- The `generate-single-card` handler of the first variant: the
coordinates parse sits in its own try/catch, so an invalid document
degrades to the empty coordinate map and the request proceeds; missing
template or student throw and become 500. After the render, the
tracking update and `await student.save()` (card.js lines 91-97) run
BEFORE `res.send` (line 106), so a save throw also reaches the route
catch and answers 500 with no zip. -/
def generateSingleCard (req : SingleReq) : Resp :=
  if !req.studentIdPresent || !req.templateIdPresent then
    .badRequest "Student ID and Template ID are required"
  else
    let parsedCoordinates : Coordinates :=
      match req.coordsRaw with
      | none => {}
      | some (Except.ok c) => c
      | some (Except.error _) => {}
    match req.template with
    | none => .serverError
    | some tmpl =>
      match req.student with
      | none => .serverError
      | some st =>
        match generateCardsWithCloudinary req.env st tmpl parsedCoordinates req.photoUrl with
        | .error _ => .serverError
        | .ok _ =>
          if req.ledgerSaveOk then
            .zipStream [frontEntry st.student_id, backEntry st.student_id]
          else .serverError

/-- C9: a coordinates document that is present but not valid JSON makes
the whole batch request answer 500 even though the roster rows were
already persisted (and any photo batch already uploaded), whereas the
single-card endpoint catches the same parse failure and proceeds with an
empty coordinate map, succeeding whenever its template, student,
front-template load and post-render tracking save succeed. -/
theorem coords_parse_divergence (req : BatchReq) (rosterSaveOk : StudentRec → Bool)
    (envOf : StudentRec → RenderEnv) (photoUrlOf : StudentRec → Option String)
    (ledgerOk : StudentRec → Bool) (tmpl : Template)
    (sreq : SingleReq) (tmpl2 : Template) (st : StudentRec) (timg : Img)
    (hcsv : req.csvPresent = true) (htid : req.templateIdPresent = true)
    (htmpl : req.template = some tmpl)
    (hbad : req.coordsRaw = some (.error ()))
    (hsid : sreq.studentIdPresent = true) (hstid : sreq.templateIdPresent = true)
    (hsbad : sreq.coordsRaw = some (.error ()))
    (hstmpl : sreq.template = some tmpl2) (hst : sreq.student = some st)
    (hsfront : sreq.env.loadFront = .ok timg)
    (hsave : sreq.ledgerSaveOk = true) :
    (processCsvGenerate req rosterSaveOk envOf photoUrlOf ledgerOk).resp = .serverError ∧
    (processCsvGenerate req rosterSaveOk envOf photoUrlOf ledgerOk).persisted =
      (parseCSVFromBuffer req.csv).filter rosterSaveOk ∧
    (processCsvGenerate req rosterSaveOk envOf photoUrlOf ledgerOk).uploadedPhotos =
      (if req.photoZipPresent then req.photoUploads else []) ∧
    generateSingleCard sreq =
      .zipStream [frontEntry st.student_id, backEntry st.student_id] := by
  refine ⟨?_, ?_, ?_, ?_⟩ <;>
    simp [processCsvGenerate, generateSingleCard, hcsv, htid, htmpl, hbad, hsid,
      hstid, hsbad, hstmpl, hst, generateCardsWithCloudinary, hsfront, hsave]

/-- Witness for C9 at a concrete pair of requests with an unparsable
coordinates document. -/
theorem coords_parse_divergence_witness :
    (processCsvGenerate
        { csvPresent := true, csv := "STU001,Jane Doe,P5,,,,,",
          templateIdPresent := true, template := some { frontUrl := "front.png" },
          photoZipPresent := false, photoUploads := [],
          coordsRaw := some (.error ()) }
        (fun _ => true)
        (fun _ => { loadFront := .ok { width := 600, height := 400 },
                    loadPhoto := .error (), loadBack := .error (),
                    measure := fun _ _ s => s.length })
        (fun _ => none) (fun _ => true)).resp = Resp.serverError ∧
    (processCsvGenerate
        { csvPresent := true, csv := "STU001,Jane Doe,P5,,,,,",
          templateIdPresent := true, template := some { frontUrl := "front.png" },
          photoZipPresent := false, photoUploads := [],
          coordsRaw := some (.error ()) }
        (fun _ => true)
        (fun _ => { loadFront := .ok { width := 600, height := 400 },
                    loadPhoto := .error (), loadBack := .error (),
                    measure := fun _ _ s => s.length })
        (fun _ => none) (fun _ => true)).persisted =
      (parseCSVFromBuffer "STU001,Jane Doe,P5,,,,,").filter (fun _ => true) ∧
    (processCsvGenerate
        { csvPresent := true, csv := "STU001,Jane Doe,P5,,,,,",
          templateIdPresent := true, template := some { frontUrl := "front.png" },
          photoZipPresent := false, photoUploads := [],
          coordsRaw := some (.error ()) }
        (fun _ => true)
        (fun _ => { loadFront := .ok { width := 600, height := 400 },
                    loadPhoto := .error (), loadBack := .error (),
                    measure := fun _ _ s => s.length })
        (fun _ => none) (fun _ => true)).uploadedPhotos = [] ∧
    generateSingleCard
        { studentIdPresent := true, templateIdPresent := true,
          coordsRaw := some (.error ()),
          template := some { frontUrl := "front.png" },
          student := some { student_id := "STU001", name := "Jane Doe", cls := "P5",
                            level := "N/A", residence := "N/A", gender := "N/A",
                            academic_year := "2024", parent_phone := "" },
          photoUrl := none,
          env := { loadFront := .ok { width := 600, height := 400 },
                   loadPhoto := .error (), loadBack := .error (),
                   measure := fun _ _ s => s.length },
          ledgerSaveOk := true } =
      Resp.zipStream [frontEntry "STU001", backEntry "STU001"] :=
  coords_parse_divergence _ _ _ _ _ { frontUrl := "front.png" } _
    { frontUrl := "front.png" }
    { student_id := "STU001", name := "Jane Doe", cls := "P5",
      level := "N/A", residence := "N/A", gender := "N/A",
      academic_year := "2024", parent_phone := "" }
    { width := 600, height := 400 }
    rfl rfl rfl rfl rfl rfl rfl rfl rfl rfl rfl

/-! ## GenerationLedger (C7): the per-student tracking update -/

/-- Generation metadata of a student record; option fields model
database fields that may be unset. -/
structure StudentGen where
  card_generated : Bool
  card_generation_count : Option Nat
  first_card_generated : Option Nat
  last_card_generated : Option Nat
deriving DecidableEq

/-- The ledger update of the first variant, identical in its batch loop
(card.js lines 265-273) and its single-card handler (lines 91-97): set
the flag, bump the count treating an unset count as 0, stamp last, and
stamp first only when unset. -/
def updateCardTracking (now : Nat) (s : StudentGen) : StudentGen :=
  let s1 : StudentGen :=
    { s with card_generated := true,
             card_generation_count := some (s.card_generation_count.getD 0 + 1),
             last_card_generated := some now }
  if s.first_card_generated = none then
    { s1 with first_card_generated := some now }
  else s1

/-- The ledger update of the second variant's batch loop (card.js lines
1006-1010): flag, count and last only - first_card_generated is never
touched there. -/
def updateCardTrackingV2Batch (now : Nat) (s : StudentGen) : StudentGen :=
  { s with card_generated := true,
           card_generation_count := some (s.card_generation_count.getD 0 + 1),
           last_card_generated := some now }

/-- C7 counterexample: in the second variant's batch loop, a record with
no first-generated timestamp keeps none after the update, although the
claim requires it to be set to now. -/
theorem ledger_first_timestamp_counterexample :
    (updateCardTrackingV2Batch 5
        { card_generated := false, card_generation_count := none,
          first_card_generated := none, last_card_generated := none }).first_card_generated
      ≠ some 5 := by
  decide

/-- C7 amended: the single-card handlers and the first variant's batch
loop set the generated flag, increment the count by exactly one (an
unset count counting as zero), stamp the last-generated time with now,
and stamp the first-generated time with now exactly when it was unset,
preserving an existing value; the second variant's batch loop performs
the same update except that it leaves the first-generated timestamp
untouched. -/
theorem ledger_update_amended (now : Nat) (s : StudentGen) :
    (updateCardTracking now s).card_generated = true ∧
    (updateCardTracking now s).card_generation_count =
      some (s.card_generation_count.getD 0 + 1) ∧
    (updateCardTracking now s).last_card_generated = some now ∧
    (s.first_card_generated = none →
      (updateCardTracking now s).first_card_generated = some now) ∧
    (∀ t, s.first_card_generated = some t →
      (updateCardTracking now s).first_card_generated = some t) ∧
    (updateCardTrackingV2Batch now s).card_generated = true ∧
    (updateCardTrackingV2Batch now s).card_generation_count =
      some (s.card_generation_count.getD 0 + 1) ∧
    (updateCardTrackingV2Batch now s).last_card_generated = some now ∧
    (updateCardTrackingV2Batch now s).first_card_generated = s.first_card_generated := by
  rcases h : s.first_card_generated with _ | t <;>
    simp [updateCardTracking, updateCardTrackingV2Batch, h]

/-- Witness for C7 amended at a fresh record: the first generation
stamps both timestamps and sets the count to one. -/
theorem ledger_update_amended_witness :
    (updateCardTracking 7
        { card_generated := false, card_generation_count := none,
          first_card_generated := none, last_card_generated := none }).first_card_generated
      = some 7 :=
  (ledger_update_amended 7
    { card_generated := false, card_generation_count := none,
      first_card_generated := none, last_card_generated := none }).2.2.2.1 rfl
